import Mathlib

/-!
Verification of `build_dataset.py` from nomad-comfort-map.

The script is a linear ETL pipeline: it reads a city table, geocodes rows
without coordinates, fetches 12-month climate normals per city, converts
units (Celsius to Fahrenheit, millimeters to inches), and emits a CSV row
list, a JSON payload, and an HTML map whose embedded script filters city
markers by month, temperature range and precipitation cap.

Numeric values are modelled as rationals.  Python floats that may be `None`
or `NaN` are modelled by the inductive type `PyVal`.  External services
(the geocoder, the climate API) are abstracted as function parameters;
exceptions in the per-city fetch are modelled with `Except String`.
-/

/-- A Python value that may be `None`, a float `NaN`, or a number. -/
inductive PyVal where
  | none
  | nan
  | num (q : ℚ)
deriving DecidableEq, Repr

/-- Python `round` ties-to-even on an integer boundary (banker rounding),
modelled exactly on rationals. -/
def roundHalfEven (q : ℚ) : ℤ :=
  let f := q.floor
  let r := q - (f : ℚ)
  if r < 1/2 then f
  else if 1/2 < r then f + 1
  else if f % 2 = 0 then f else f + 1

/-- Python `round(x, d)`: round to `d` decimal places, ties to even. -/
def pyRound (q : ℚ) (d : ℕ) : ℚ :=
  (roundHalfEven (q * 10 ^ d) : ℚ) / 10 ^ d

/-- `c_to_f` from `build_dataset.py`: Celsius to Fahrenheit, `None`/`NaN`
preserved as `None`, rounded to one decimal place. -/
def c_to_f : PyVal → Option ℚ
  | .none => Option.none
  | .nan => Option.none
  | .num c => some (pyRound (c * 9 / 5 + 32) 1)

/-- `mm_to_in` from `build_dataset.py`: millimeters to inches, `None`/`NaN`
preserved as `None`, rounded to two decimal places. -/
def mm_to_in : PyVal → Option ℚ
  | .none => Option.none
  | .nan => Option.none
  | .num mm => some (pyRound (mm / (254/10)) 2)

/-- The `MONTHS` constant of `build_dataset.py`. -/
def MONTHS : List String :=
  ["Jan","Feb","Mar","Apr","May","Jun","Jul","Aug","Sep","Oct","Nov","Dec"]

/-- Lookup in a Python dict (or JS object) modelled as an association list;
an absent key is folded into `Option.none`, matching JS property access
(`undefined == null`).  The dicts produced by the fetcher always carry all
12 month keys, so the default is never exercised on the Python side. -/
def dictGet (d : List (String × Option ℚ)) (k : String) : Option ℚ :=
  match d.lookup k with
  | some v => v
  | Option.none => Option.none

/-- The climate-source response table (`normals.fetch()` result): row count,
column presence flags, and per-month column values (indexed 1..12). -/
structure ClimTable where
  nrows : ℕ
  hasTavg : Bool
  hasTmin : Bool
  hasTmax : Bool
  hasPrcp : Bool
  tavg : ℕ → PyVal
  tmin : ℕ → PyVal
  tmax : ℕ → PyVal
  prcp : ℕ → PyVal

/-- The four month-keyed mappings produced by `fetch_normals_for_point`. -/
structure MonthlyNormals where
  tavg_f : List (String × Option ℚ)
  tmin_f : List (String × Option ℚ)
  tmax_f : List (String × Option ℚ)
  prcp_in : List (String × Option ℚ)
deriving DecidableEq, Repr

/-- One dict comprehension of `fetch_normals_for_point`:
`{MONTHS[i-1]: conv(df.loc[i, col]) if col in df.columns else None for i in range(1,13)}`. -/
def monthDict (has : Bool) (conv : PyVal → Option ℚ) (col : ℕ → PyVal) :
    List (String × Option ℚ) :=
  (List.range 12).map fun i => (MONTHS.getD i "", if has then conv (col (i+1)) else Option.none)

/-- `fetch_normals_for_point` from `build_dataset.py`.  The argument is the
fetched DataFrame (`Option.none` models `df is None`); the result is `{}`
(`Option.none`) when the table is missing, empty, or shorter than 12 rows. -/
def fetch_normals_for_point (resp : Option ClimTable) : Option MonthlyNormals :=
  match resp with
  | Option.none => Option.none
  | some df =>
    if df.nrows = 0 ∨ df.nrows < 12 then Option.none
    else some
      { tavg_f := monthDict df.hasTavg c_to_f df.tavg
        tmin_f := monthDict df.hasTmin c_to_f df.tmin
        tmax_f := monthDict df.hasTmax c_to_f df.tmax
        prcp_in := monthDict df.hasPrcp mm_to_in df.prcp }

/-- A row of the city table.  `lat`/`lon` are `Option.none` when the value is
missing (pandas `NaN`, `pd.isna` true). -/
structure CityRow where
  city : String
  country : String
  lat : Option ℚ
  lon : Option ℚ
deriving DecidableEq, Repr

/-- Per-row body of `geocode_cities`: query `"City, Country"`, fall back to
the city alone, record nulls on a second no-match.  The geocoder is
abstracted as a function from query string to optional coordinates. -/
def geocodeRow (geo : String → Option (ℚ × ℚ)) (city country : String) :
    Option ℚ × Option ℚ :=
  match geo (city ++ ", " ++ country) with
  | some loc => (some loc.1, some loc.2)
  | Option.none =>
    match geo city with
    | some loc => (some loc.1, some loc.2)
    | Option.none => (Option.none, Option.none)

/-- `geocode_cities` from `build_dataset.py`: fills the Lat/Lon columns for
every row of the frame. -/
def geocode_cities (geo : String → Option (ℚ × ℚ)) (rows : List CityRow) :
    List CityRow :=
  rows.map fun r =>
    let p := geocodeRow geo r.city r.country
    { r with lat := p.1, lon := p.2 }

/-- The source table (`cities_200.csv` as read): whether the Lat and Lon
columns are present, and the rows. -/
structure SourceTable where
  hasLat : Bool
  hasLon : Bool
  rows : List CityRow

/-- The resolver stage of `main`: geocoding runs (and the table is written
back, second component `true`) exactly when the Lat or Lon column is
missing; otherwise the table passes through untouched. -/
def resolveStage (geo : String → Option (ℚ × ℚ)) (t : SourceTable) :
    SourceTable × Bool :=
  if t.hasLat && t.hasLon then (t, false)
  else ({ hasLat := true, hasLon := true, rows := geocode_cities geo t.rows }, true)

/-- One flattened CSV row (`out_row`): identification fields plus the
per-month `{Month}_{field}` columns in loop order. -/
structure CityRecord where
  city : String
  country : String
  lat : ℚ
  lon : ℚ
  cols : List (String × Option ℚ)
deriving DecidableEq, Repr

/-- One object of the JSON payload. -/
structure JsonObj where
  city : String
  country : String
  lat : ℚ
  lon : ℚ
  tavg_f : List (String × Option ℚ)
  tmin_f : List (String × Option ℚ)
  tmax_f : List (String × Option ℚ)
  prcp_in : List (String × Option ℚ)
deriving DecidableEq, Repr

/-- The `for m in MONTHS` body that flattens normals into CSV columns. -/
def flattenCols (n : MonthlyNormals) : List (String × Option ℚ) :=
  MONTHS.flatMap fun m =>
    [(m ++ "_tavg_f", dictGet n.tavg_f m),
     (m ++ "_tmin_f", dictGet n.tmin_f m),
     (m ++ "_tmax_f", dictGet n.tmax_f m),
     (m ++ "_prcp_in", dictGet n.prcp_in m)]

/-- Outcome of one iteration of the per-city loop in `main`. -/
inductive StepResult where
  | skippedNoCoords (msg : String)
  | skippedNoNormals (msg : String)
  | errored (msg : String)
  | ok (rec : CityRecord) (obj : JsonObj)
deriving DecidableEq, Repr

/-- One iteration of the per-city loop of `main`.  The climate API (network
fetch plus DataFrame access, i.e. the body of the `try`) is abstracted as
`api`; `Except.error e` models an exception with message `e`, caught by the
`except` clause. -/
def processRow (api : ℚ → ℚ → Except String (Option ClimTable)) (r : CityRow) :
    StepResult :=
  match r.lat, r.lon with
  | some la, some lo =>
    (match api la lo with
     | Except.error e =>
       .errored ("Error for " ++ r.city ++ ", " ++ r.country ++ ": " ++ e)
     | Except.ok resp =>
       match fetch_normals_for_point resp with
       | Option.none =>
         .skippedNoNormals ("No normals returned for " ++ r.city ++ ", " ++ r.country)
       | some n =>
         .ok ⟨r.city, r.country, la, lo, flattenCols n⟩
            ⟨r.city, r.country, la, lo, n.tavg_f, n.tmin_f, n.tmax_f, n.prcp_in⟩)
  | _, _ =>
    .skippedNoCoords ("Skipping " ++ r.city ++ ", " ++ r.country ++ " (no coordinates)")

/-- Projection: the CSV row appended for an `ok` step. -/
def stepRec : StepResult → Option CityRecord
  | .ok rec _ => some rec
  | _ => Option.none

/-- Projection: the JSON object appended for an `ok` step. -/
def stepObj : StepResult → Option JsonObj
  | .ok _ obj => some obj
  | _ => Option.none

/-- Projection: the line printed for a skipped or errored step. -/
def stepLog : StepResult → Option String
  | .skippedNoCoords m => some m
  | .skippedNoNormals m => some m
  | .errored m => some m
  | .ok _ _ => Option.none

/-- Does the step append to both accumulators? -/
def isOkStep : StepResult → Bool
  | .ok _ _ => true
  | _ => false

/-- The `records` accumulator after the loop. -/
def collectRecords (api : ℚ → ℚ → Except String (Option ClimTable))
    (rows : List CityRow) : List CityRecord :=
  rows.filterMap fun r => stepRec (processRow api r)

/-- The `json_payload` accumulator after the loop. -/
def collectPayload (api : ℚ → ℚ → Except String (Option ClimTable))
    (rows : List CityRow) : List JsonObj :=
  rows.filterMap fun r => stepObj (processRow api r)

/-- The skip/error lines printed by the loop, in order. -/
def collectLog (api : ℚ → ℚ → Except String (Option ClimTable))
    (rows : List CityRow) : List String :=
  rows.filterMap fun r => stepLog (processRow api r)

/-- The three output files.  The HTML document embeds the JSON payload
verbatim (`city_data` is re-read from the JSON file just written). -/
structure Artifacts where
  csvRows : List CityRecord
  jsonArr : List JsonObj
  htmlData : List JsonObj
deriving DecidableEq, Repr

/-- The failure line printed when no records were collected. -/
def NO_DATA_MSG : String :=
  "No data collected. Please check your internet connection/API availability and try again."

/-- Tail of `main`: on an empty `records` list, print the failure line and
return without writing any file (`Option.none`); otherwise write the three
artifacts. -/
def finishRun (records : List CityRecord) (payload : List JsonObj) :
    Option Artifacts × List String :=
  if records.isEmpty then (Option.none, [NO_DATA_MSG])
  else (some ⟨records, payload, payload⟩, [])

/-- The artifacts produced by a run of the per-city loop plus the emitter. -/
def runArtifacts (api : ℚ → ℚ → Except String (Option ClimTable))
    (rows : List CityRow) : Option Artifacts :=
  (finishRun (collectRecords api rows) (collectPayload api rows)).1

/-- The `update()` function of the emitted HTML: a marker is shown for city
`c` in month `m` iff the month's average temperature is non-null, lies in
`[tmin, tmax]`, and the month's precipitation is null or at most `maxP`. -/
def markerShown (c : JsonObj) (m : String) (tmin tmax maxP : ℚ) : Bool :=
  match dictGet c.tavg_f m with
  | Option.none => false
  | some t =>
    let p := dictGet c.prcp_in m
    let tempOk := decide (tmin ≤ t) && decide (t ≤ tmax)
    let prcpOk := match p with
      | Option.none => true
      | some pv => decide (pv ≤ maxP)
    tempOk && prcpOk


/-! ### Helper lemmas -/

theorem monthDict_length (h : Bool) (conv : PyVal → Option ℚ) (col : ℕ → PyVal) :
    (monthDict h conv col).length = 12 := by
  simp [monthDict]

theorem monthDict_keys (h : Bool) (conv : PyVal → Option ℚ) (col : ℕ → PyVal) :
    (monthDict h conv col).map Prod.fst = MONTHS := by
  simp only [monthDict, List.map_map]
  rfl

theorem monthDict_false (conv : PyVal → Option ℚ) (col : ℕ → PyVal) :
    monthDict false conv col = MONTHS.map fun m => (m, Option.none) := by
  simp only [monthDict, Bool.false_eq_true, if_false]
  rfl

/-! ### Claims -/

/-- Claim C1: the unit conversions are null-preserving total functions:
`None`/`NaN` inputs give `None`, a numeric Celsius value is converted by
`round(c * 9/5 + 32, 1)` (so 0 °C ↦ 32.0 °F and 100 °C ↦ 212.0 °F), and a
numeric millimeter value by `round(mm / 25.4, 2)` (so 25.4 mm ↦ 1.0 in and
0 mm ↦ 0.0 in).  Totality (never raises) is by construction: both are total
Lean functions on `PyVal`. -/
theorem conversions_null_preserving_and_correct :
    c_to_f .none = Option.none ∧ c_to_f .nan = Option.none ∧
    (∀ q : ℚ, c_to_f (.num q) = some (pyRound (q * 9 / 5 + 32) 1)) ∧
    c_to_f (.num 0) = some 32 ∧ c_to_f (.num 100) = some 212 ∧
    mm_to_in .none = Option.none ∧ mm_to_in .nan = Option.none ∧
    (∀ q : ℚ, mm_to_in (.num q) = some (pyRound (q / (254 / 10)) 2)) ∧
    mm_to_in (.num (254 / 10)) = some 1 ∧ mm_to_in (.num 0) = some 0 := by
  refine ⟨rfl, rfl, fun q => rfl, ?_, ?_, rfl, rfl, fun q => rfl, ?_, ?_⟩ <;>
    norm_num [c_to_f, mm_to_in, pyRound, roundHalfEven, Rat.floor]

/-- Claim C4: a missing (`None`), empty, or shorter-than-12-rows response
table yields the empty result, and every non-empty result carries all 12
months in each of the four mappings (no partial `MonthlyNormals`). -/
theorem fetch_normals_short_table_empty :
    fetch_normals_for_point Option.none = Option.none ∧
    (∀ df : ClimTable, df.nrows = 0 ∨ df.nrows < 12 →
      fetch_normals_for_point (some df) = Option.none) ∧
    (∀ (resp : Option ClimTable) (n : MonthlyNormals),
      fetch_normals_for_point resp = some n →
      n.tavg_f.length = 12 ∧ n.tmin_f.length = 12 ∧
      n.tmax_f.length = 12 ∧ n.prcp_in.length = 12) := by
  refine ⟨rfl, ?_, ?_⟩
  · intro df h
    simp only [fetch_normals_for_point]
    rw [if_pos h]
  · intro resp n h
    match resp with
    | Option.none => exact absurd h (by simp [fetch_normals_for_point])
    | some df =>
      simp only [fetch_normals_for_point] at h
      by_cases hc : df.nrows = 0 ∨ df.nrows < 12
      · rw [if_pos hc] at h; exact absurd h (by simp)
      · rw [if_neg hc] at h
        obtain rfl : _ = n := Option.some.inj h
        exact ⟨monthDict_length _ _ _, monthDict_length _ _ _,
               monthDict_length _ _ _, monthDict_length _ _ _⟩

/-- A concrete climate table used to witness the fetcher claims: 12 rows,
all columns except `tmax` present. -/
def sampleTable : ClimTable :=
  { nrows := 12, hasTavg := true, hasTmin := true, hasTmax := false, hasPrcp := true,
    tavg := fun _ => .num 20, tmin := fun _ => .num 10,
    tmax := fun _ => .none, prcp := fun i => if i = 3 then .nan else .num 50 }

/-- An empty climate table (0 rows) used to witness the short-table case. -/
def emptyTable : ClimTable :=
  { nrows := 0, hasTavg := false, hasTmin := false, hasTmax := false, hasPrcp := false,
    tavg := fun _ => .none, tmin := fun _ => .none,
    tmax := fun _ => .none, prcp := fun _ => .none }

/-- The normals `fetch_normals_for_point` produces for `sampleTable`. -/
def sampleNormals : MonthlyNormals :=
  { tavg_f := monthDict true c_to_f sampleTable.tavg
    tmin_f := monthDict true c_to_f sampleTable.tmin
    tmax_f := monthDict false c_to_f sampleTable.tmax
    prcp_in := monthDict true mm_to_in sampleTable.prcp }

/-- Witness for C4 at concrete inputs: the empty table yields the empty
result, and the sample 12-row table's result has 12 keys per mapping. -/
theorem fetch_normals_short_table_empty_witness :
    fetch_normals_for_point (some emptyTable) = Option.none ∧
    sampleNormals.tavg_f.length = 12 := by
  constructor
  · exact fetch_normals_short_table_empty.2.1 emptyTable (Or.inl rfl)
  · exact (fetch_normals_short_table_empty.2.2 (some sampleTable) sampleNormals rfl).1

/-- Claim C5: every non-empty fetcher result has the four mappings keyed by
exactly the 12 fixed month labels, in order; an absent source column makes
the corresponding field all-null over the same 12 keys rather than
dropping keys. -/
theorem fetch_normals_key_sets :
    ∀ (resp : Option ClimTable) (n : MonthlyNormals),
      fetch_normals_for_point resp = some n →
      (n.tavg_f.map Prod.fst = MONTHS ∧ n.tmin_f.map Prod.fst = MONTHS ∧
       n.tmax_f.map Prod.fst = MONTHS ∧ n.prcp_in.map Prod.fst = MONTHS) ∧
      ∀ df : ClimTable, resp = some df →
        (df.hasTavg = false → n.tavg_f = MONTHS.map fun m => (m, Option.none)) ∧
        (df.hasTmin = false → n.tmin_f = MONTHS.map fun m => (m, Option.none)) ∧
        (df.hasTmax = false → n.tmax_f = MONTHS.map fun m => (m, Option.none)) ∧
        (df.hasPrcp = false → n.prcp_in = MONTHS.map fun m => (m, Option.none)) := by
  intro resp n h
  match resp with
  | Option.none => exact absurd h (by simp [fetch_normals_for_point])
  | some df =>
    simp only [fetch_normals_for_point] at h
    by_cases hc : df.nrows = 0 ∨ df.nrows < 12
    · rw [if_pos hc] at h; exact absurd h (by simp)
    · rw [if_neg hc] at h
      obtain rfl : _ = n := Option.some.inj h
      refine ⟨⟨monthDict_keys _ _ _, monthDict_keys _ _ _,
               monthDict_keys _ _ _, monthDict_keys _ _ _⟩, ?_⟩
      intro df₂ hdf
      obtain rfl : df = df₂ := Option.some.inj hdf
      refine ⟨fun hf => ?_, fun hf => ?_, fun hf => ?_, fun hf => ?_⟩ <;>
        simp only [hf] <;> exact monthDict_false _ _

/-- Witness for C5 at the concrete sample table: key sets are the month
labels and the absent `tmax` column gives the all-null mapping. -/
theorem fetch_normals_key_sets_witness :
    sampleNormals.tavg_f.map Prod.fst = MONTHS ∧
    sampleNormals.tmax_f = MONTHS.map fun m => (m, Option.none) := by
  have h := fetch_normals_key_sets (some sampleTable) sampleNormals rfl
  exact ⟨h.1.1, (h.2 sampleTable rfl).2.2.1 rfl⟩

/-- Claim C3: the resolver is skipped exactly when both the Lat and Lon
columns are present; otherwise (when a coordinate column is missing, so
every row lacks complete coordinates) every row is geocoded — queried as
`"City, Country"`, retried as the city alone on no match, given null
coordinates on a second no-match — and the result is written back to the
source table (second component `true` models `cities.to_csv`). -/
theorem resolver_geocodes_missing_coords :
    ∀ (geo : String → Option (ℚ × ℚ)) (t : SourceTable),
      (t.hasLat = true → t.hasLon = true → resolveStage geo t = (t, false)) ∧
      (t.hasLat = false ∨ t.hasLon = false →
        (resolveStage geo t).2 = true ∧
        (resolveStage geo t).1.rows = t.rows.map fun r =>
          { r with lat := (geocodeRow geo r.city r.country).1,
                   lon := (geocodeRow geo r.city r.country).2 }) ∧
      ∀ city country : String,
        (∀ loc : ℚ × ℚ, geo (city ++ ", " ++ country) = some loc →
          geocodeRow geo city country = (some loc.1, some loc.2)) ∧
        (geo (city ++ ", " ++ country) = Option.none →
          ∀ loc : ℚ × ℚ, geo city = some loc →
            geocodeRow geo city country = (some loc.1, some loc.2)) ∧
        (geo (city ++ ", " ++ country) = Option.none → geo city = Option.none →
          geocodeRow geo city country = (Option.none, Option.none)) := by
  intro geo t
  refine ⟨?_, ?_, ?_⟩
  · intro h1 h2
    simp [resolveStage, h1, h2]
  · intro h
    have hb : (t.hasLat && t.hasLon) = false := by
      rcases h with h | h <;> simp [h]
    simp [resolveStage, hb, geocode_cities]
  · intro city country
    refine ⟨fun loc hl => ?_, fun h1 loc hl => ?_, fun h1 h2 => ?_⟩ <;>
      simp [geocodeRow, *]

/-- A concrete geocoder for witnesses: resolves the full query
`"Paris, France"`, resolves `"Springfield"` only as a bare city name, and
knows nothing else. -/
def wGeo : String → Option (ℚ × ℚ) := fun s =>
  if s = "Paris, France" then some (48, 2)
  else if s = "Springfield" then some (39, -89)
  else Option.none

/-- A source table without coordinate columns. -/
def wTableBare : SourceTable :=
  { hasLat := false, hasLon := false,
    rows := [{ city := "Paris", country := "France", lat := Option.none, lon := Option.none }] }

/-- A source table that already has both coordinate columns. -/
def wTableFull : SourceTable :=
  { hasLat := true, hasLon := true,
    rows := [{ city := "Paris", country := "France", lat := some 1, lon := some 2 }] }

/-- Witness for C3 at concrete inputs: the populated table passes through
unresolved, the bare table triggers geocoding and write-back, and the three
query outcomes (direct hit, city-only fallback, double miss) behave as
claimed. -/
theorem resolver_geocodes_missing_coords_witness :
    resolveStage wGeo wTableFull = (wTableFull, false) ∧
    (resolveStage wGeo wTableBare).2 = true ∧
    geocodeRow wGeo "Paris" "France" = (some 48, some 2) ∧
    geocodeRow wGeo "Springfield" "Nowhereland" = (some 39, some (-89)) ∧
    geocodeRow wGeo "Atlantis" "Nowhere" = (Option.none, Option.none) := by
  refine ⟨(resolver_geocodes_missing_coords wGeo wTableFull).1 rfl rfl,
    ((resolver_geocodes_missing_coords wGeo wTableBare).2.1 (Or.inl rfl)).1,
    ((resolver_geocodes_missing_coords wGeo wTableBare).2.2 "Paris" "France").1
      (48, 2) (by decide),
    ((resolver_geocodes_missing_coords wGeo wTableBare).2.2 "Springfield" "Nowhereland").2.1
      (by decide) (39, -89) (by decide),
    ((resolver_geocodes_missing_coords wGeo wTableBare).2.2 "Atlantis" "Nowhere").2.2
      (by decide) (by decide)⟩

/-- Claim C6: a row with a null Lat or Lon is skipped before any fetch (its
step is the "no coordinates" skip), and deleting such a row changes neither
accumulator nor any of the three emitted artifacts — the city appears in no
output. -/
theorem null_coord_rows_excluded :
    ∀ (api : ℚ → ℚ → Except String (Option ClimTable)) (r : CityRow),
      r.lat = Option.none ∨ r.lon = Option.none →
      processRow api r =
        .skippedNoCoords ("Skipping " ++ r.city ++ ", " ++ r.country ++ " (no coordinates)") ∧
      ∀ pre post : List CityRow,
        collectRecords api (pre ++ r :: post) = collectRecords api (pre ++ post) ∧
        collectPayload api (pre ++ r :: post) = collectPayload api (pre ++ post) ∧
        runArtifacts api (pre ++ r :: post) = runArtifacts api (pre ++ post) := by
  intro api r h
  have hskip : processRow api r =
      .skippedNoCoords ("Skipping " ++ r.city ++ ", " ++ r.country ++ " (no coordinates)") := by
    rcases h with h | h
    · cases hlon : r.lon <;> simp [processRow, h, hlon]
    · cases hlat : r.lat <;> simp [processRow, h, hlat]
  refine ⟨hskip, fun pre post => ?_⟩
  have h1 : collectRecords api (pre ++ r :: post) = collectRecords api (pre ++ post) := by
    simp [collectRecords, List.filterMap_append, List.filterMap_cons, hskip, stepRec]
  have h2 : collectPayload api (pre ++ r :: post) = collectPayload api (pre ++ post) := by
    simp [collectPayload, List.filterMap_append, List.filterMap_cons, hskip, stepObj]
  exact ⟨h1, h2, by simp only [runArtifacts, h1, h2]⟩

/-- A climate API for witnesses that always succeeds with `sampleTable`. -/
def wApiOk : ℚ → ℚ → Except String (Option ClimTable) :=
  fun _ _ => Except.ok (some sampleTable)

/-- A climate API for witnesses that always raises. -/
def wApiErr : ℚ → ℚ → Except String (Option ClimTable) :=
  fun _ _ => Except.error "connection refused"

/-- Witness for C6: a row with a null Lon is skipped and contributes to no
artifact even under an always-succeeding API. -/
theorem null_coord_rows_excluded_witness :
    processRow wApiOk { city := "Lima", country := "Peru", lat := some 1, lon := Option.none } =
      .skippedNoCoords "Skipping Lima, Peru (no coordinates)" ∧
    runArtifacts wApiOk
        [{ city := "Lima", country := "Peru", lat := some 1, lon := Option.none }] =
      runArtifacts wApiOk [] := by
  have h := null_coord_rows_excluded wApiOk
    { city := "Lima", country := "Peru", lat := some 1, lon := Option.none } (Or.inr rfl)
  exact ⟨h.1, (h.2 [] []).2.2⟩

/-- Claim C7: after the loop, the CSV record list and the JSON payload have
the same length, equal to the number of successfully processed cities; a
city is successful exactly when its coordinates are present, the API call
returns without exception, and the normals are non-empty. -/
theorem record_payload_counts :
    ∀ (api : ℚ → ℚ → Except String (Option ClimTable)) (rows : List CityRow),
      (collectRecords api rows).length = (collectPayload api rows).length ∧
      (collectRecords api rows).length =
        (rows.filter fun r => isOkStep (processRow api r)).length ∧
      ∀ r : CityRow, isOkStep (processRow api r) = true ↔
        ∃ (la lo : ℚ) (resp : Option ClimTable) (n : MonthlyNormals),
          r.lat = some la ∧ r.lon = some lo ∧ api la lo = Except.ok resp ∧
          fetch_normals_for_point resp = some n := by
  intro api rows
  have len : ∀ l : List CityRow,
      (collectRecords api l).length = (l.filter fun r => isOkStep (processRow api r)).length ∧
      (collectPayload api l).length = (l.filter fun r => isOkStep (processRow api r)).length := by
    intro l
    induction l with
    | nil => simp [collectRecords, collectPayload]
    | cons r rs ih =>
      rcases ih with ⟨ih1, ih2⟩
      cases hs : processRow api r <;>
        simp [collectRecords, collectPayload, List.filterMap_cons, List.filter_cons,
          hs, stepRec, stepObj, isOkStep, ih1, ih2] at ih1 ih2 ⊢
  refine ⟨(len rows).1.trans (len rows).2.symm, (len rows).1, ?_⟩
  intro r
  constructor
  · intro h
    cases hlat : r.lat with
    | none => simp [processRow, hlat, isOkStep] at h
    | some la =>
      cases hlon : r.lon with
      | none => simp [processRow, hlat, hlon, isOkStep] at h
      | some lo =>
        cases hapi : api la lo with
        | error e => simp [processRow, hlat, hlon, hapi, isOkStep] at h
        | ok resp =>
          cases hf : fetch_normals_for_point resp with
          | none => simp [processRow, hlat, hlon, hapi, hf, isOkStep] at h
          | some n => exact ⟨la, lo, resp, n, rfl, rfl, hapi, hf⟩
  · rintro ⟨la, lo, resp, n, h1, h2, h3, h4⟩
    simp [processRow, h1, h2, h3, h4, isOkStep]

/-- Witness for C7: under the always-succeeding API, a two-row list with one
coordinate-less row yields one record and one payload object, and the row
with coordinates satisfies the success characterization. -/
theorem record_payload_counts_witness :
    (collectRecords wApiOk
        [{ city := "Lima", country := "Peru", lat := some 1, lon := Option.none },
         { city := "Quito", country := "Ecuador", lat := some 0, lon := some 78 }]).length =
      (collectPayload wApiOk
        [{ city := "Lima", country := "Peru", lat := some 1, lon := Option.none },
         { city := "Quito", country := "Ecuador", lat := some 0, lon := some 78 }]).length ∧
    isOkStep (processRow wApiOk
        { city := "Quito", country := "Ecuador", lat := some 0, lon := some 78 }) = true := by
  constructor
  · exact (record_payload_counts wApiOk
      [{ city := "Lima", country := "Peru", lat := some 1, lon := Option.none },
       { city := "Quito", country := "Ecuador", lat := some 0, lon := some 78 }]).1
  · exact ((record_payload_counts wApiOk []).2.2
      { city := "Quito", country := "Ecuador", lat := some 0, lon := some 78 }).mpr
      ⟨0, 78, some sampleTable, sampleNormals, rfl, rfl, rfl, rfl⟩

/-- Claim C8: an exception raised during a city's fetch/convert step is
caught inside the loop: the step becomes an error line carrying the
exception's message, that line is printed in place, and the remaining
cities are processed exactly as if the failing city were absent. -/
theorem exceptions_caught_per_city :
    ∀ (api : ℚ → ℚ → Except String (Option ClimTable)) (r : CityRow)
      (la lo : ℚ) (e : String),
      r.lat = some la → r.lon = some lo → api la lo = Except.error e →
      processRow api r =
        .errored ("Error for " ++ r.city ++ ", " ++ r.country ++ ": " ++ e) ∧
      ∀ pre post : List CityRow,
        collectLog api (pre ++ r :: post) =
          collectLog api pre ++
            ("Error for " ++ r.city ++ ", " ++ r.country ++ ": " ++ e) :: collectLog api post ∧
        collectRecords api (pre ++ r :: post) = collectRecords api (pre ++ post) := by
  intro api r la lo e h1 h2 h3
  have herr : processRow api r =
      .errored ("Error for " ++ r.city ++ ", " ++ r.country ++ ": " ++ e) := by
    simp [processRow, h1, h2, h3]
  refine ⟨herr, fun pre post => ⟨?_, ?_⟩⟩
  · simp [collectLog, List.filterMap_append, List.filterMap_cons, herr, stepLog]
  · simp [collectRecords, List.filterMap_append, List.filterMap_cons, herr, stepRec]

/-- Witness for C8: with an API that always raises "connection refused",
the failing city produces exactly its error line and no record. -/
theorem exceptions_caught_per_city_witness :
    processRow wApiErr { city := "Lima", country := "Peru", lat := some 1, lon := some 2 } =
      .errored "Error for Lima, Peru: connection refused" ∧
    collectLog wApiErr [{ city := "Lima", country := "Peru", lat := some 1, lon := some 2 }] =
      ["Error for Lima, Peru: connection refused"] ∧
    collectRecords wApiErr [{ city := "Lima", country := "Peru", lat := some 1, lon := some 2 }] =
      collectRecords wApiErr [] := by
  have h := exceptions_caught_per_city wApiErr
    { city := "Lima", country := "Peru", lat := some 1, lon := some 2 }
    1 2 "connection refused" rfl rfl rfl
  exact ⟨h.1, by simpa using (h.2 [] []).1, by simpa using (h.2 [] []).2⟩

/-- Claim C9: when zero records were collected, the emitter never runs: no
artifact is produced (`Option.none` models that no file is written) and the
failure line is printed. -/
theorem zero_records_no_output :
    ∀ (api : ℚ → ℚ → Except String (Option ClimTable)) (rows : List CityRow),
      collectRecords api rows = [] →
      runArtifacts api rows = Option.none ∧
      (finishRun (collectRecords api rows) (collectPayload api rows)).2 = [NO_DATA_MSG] := by
  intro api rows h
  constructor
  · simp [runArtifacts, finishRun, h]
  · simp [finishRun, h]

/-- Witness for C9: a run over one city whose fetch raises collects nothing,
writes nothing, and prints the failure line. -/
theorem zero_records_no_output_witness :
    runArtifacts wApiErr [{ city := "Lima", country := "Peru", lat := some 1, lon := some 2 }] =
      Option.none ∧
    (finishRun
        (collectRecords wApiErr [{ city := "Lima", country := "Peru", lat := some 1, lon := some 2 }])
        (collectPayload wApiErr [{ city := "Lima", country := "Peru", lat := some 1, lon := some 2 }])).2 =
      [NO_DATA_MSG] :=
  zero_records_no_output wApiErr
    [{ city := "Lima", country := "Peru", lat := some 1, lon := some 2 }] rfl

/-- Claim C2: in the emitted map's `update()`, for a city whose selected
month has a (non-null) average temperature `t`, the marker is shown iff
`tmin ≤ t ≤ tmax` and the month's precipitation is null or at most `maxP`;
a null precipitation never excludes a city. -/
theorem filter_shows_iff_in_range :
    ∀ (c : JsonObj) (m : String) (tmin tmax maxP t : ℚ),
      dictGet c.tavg_f m = some t →
      (markerShown c m tmin tmax maxP = true ↔
        tmin ≤ t ∧ t ≤ tmax ∧
          (dictGet c.prcp_in m = Option.none ∨
           ∃ p : ℚ, dictGet c.prcp_in m = some p ∧ p ≤ maxP)) := by
  intro c m tmin tmax maxP t h
  cases hp : dictGet c.prcp_in m with
  | none => simp [markerShown, h, hp, and_assoc]
  | some pv => simp [markerShown, h, hp, and_assoc]

/-- A concrete JSON payload object for filter witnesses: January average
temperature 68 °F and precipitation 2 in, all other months null. -/
def sampleCity : JsonObj :=
  { city := "Lisbon", country := "Portugal", lat := 38, lon := -9,
    tavg_f := MONTHS.map fun m => (m, if m = "Jan" then some 68 else Option.none),
    tmin_f := MONTHS.map fun m => (m, Option.none),
    tmax_f := MONTHS.map fun m => (m, Option.none),
    prcp_in := MONTHS.map fun m => (m, if m = "Jan" then some 2 else Option.none) }

/-- A payload object with a null January temperature but known
precipitation. -/
def nullTempCity : JsonObj :=
  { city := "Erewhon", country := "Nowhere", lat := 0, lon := 0,
    tavg_f := MONTHS.map fun m => (m, Option.none),
    tmin_f := MONTHS.map fun m => (m, Option.none),
    tmax_f := MONTHS.map fun m => (m, Option.none),
    prcp_in := MONTHS.map fun m => (m, some 1) }

/-- Witness for C2: the spec's filtering scenario — 68 °F, 2 in, filters
(50, 75, 5) show the marker; filters (50, 65, 5) hide it. -/
theorem filter_shows_iff_in_range_witness :
    markerShown sampleCity "Jan" 50 75 5 = true ∧
    markerShown sampleCity "Jan" 50 65 5 = false := by
  constructor
  · exact (filter_shows_iff_in_range sampleCity "Jan" 50 75 5 68 (by decide)).mpr
      ⟨by norm_num, by norm_num, Or.inr ⟨2, by decide, by norm_num⟩⟩
  · have h := filter_shows_iff_in_range sampleCity "Jan" 50 65 5 68 (by decide)
    simp only [Bool.not_eq_true] at h ⊢
    cases hm : markerShown sampleCity "Jan" 50 65 5 with
    | false => rfl
    | true => exact absurd ((h.mp hm).2.1) (by norm_num)

/-- Claim C10: a city whose selected-month average temperature is null is
never shown, whatever the three filter values are — the null check runs
before any comparison. -/
theorem null_temp_never_shown :
    ∀ (c : JsonObj) (m : String) (tmin tmax maxP : ℚ),
      dictGet c.tavg_f m = Option.none →
      markerShown c m tmin tmax maxP = false := by
  intro c m tmin tmax maxP h
  simp [markerShown, h]

/-- Witness for C10: the null-temperature city is hidden even by filters
that accept every temperature and precipitation value. -/
theorem null_temp_never_shown_witness :
    markerShown nullTempCity "Jan" (-1000) 1000 1000 = false :=
  null_temp_never_shown nullTempCity "Jan" (-1000) 1000 1000 (by decide)
